import Mathlib

/-!
# Verification of `examples/switch_layout.py`

A shallow embedding of the layout-switcher CLI script. The filesystem is a
map from path strings to optional file contents; `sys.exit` is modelled with
`Except`; `shutil.copy2` failures other than a missing source (permissions,
disk full, ...) are modelled by an explicit oracle of booleans, one consumed
per attempted copy; `json.load` is a parameter `parse`, returning `none` on
a decode error. Messages that interpolate an exception object are embedded
with the fixed prefix only.
-/

namespace SwitchLayout

/-- A filesystem: maps a path to the contents stored there, `none` if the
file does not exist. -/
abbrev Fs := String → Option String

/-- Write `contents` at `path`. -/
def Fs.write (fs : Fs) (path contents : String) : Fs :=
  fun q => if q = path then some contents else fs q

/-- The record stored for one layout under `"layouts"` in the config JSON. -/
structure LayoutInfo where
  name : String
  description : String
  recommended_resolution : String
  use_cases : List String
  file : String
deriving DecidableEq

/-- The parsed configuration document: the layout registry, an ordered
mapping from layout id to its record (Python dicts preserve insertion
order). -/
structure Config where
  layouts : List (String × LayoutInfo)
deriving DecidableEq

/-- Registry lookup, as `layout_id in config["layouts"]` /
`config["layouts"][layout_id]`. -/
def Config.find (c : Config) (id : String) : Option LayoutInfo :=
  c.layouts.lookup id

/-- Program state during one invocation: the filesystem, the lines printed
to standard output so far, and the copy-failure oracle (head consumed at
each attempted copy; an exhausted oracle means no failure). -/
structure St where
  fs : Fs
  out : List String
  oracle : List Bool

/-- `print(msg)`. -/
def St.print (st : St) (msg : String) : St :=
  { st with out := st.out ++ [msg] }

/-- Print several lines. -/
def St.printAll (st : St) (msgs : List String) : St :=
  { st with out := st.out ++ msgs }

/-- `Path(__file__).parent / "layout_config.json"`. -/
def configPath : String := "examples/layout_config.json"

/-- `Path(__file__).parent / "current_layout_backup.json"`. -/
def backupPath : String := "examples/current_layout_backup.json"

/-- `Path(__file__).parent.parent / "editor_layout.json"`. -/
def destPath : String := "editor_layout.json"

/-- `Path(__file__).parent / layout_info["file"]`. -/
def srcPath (file : String) : String := "examples/" ++ file

/-- `shutil.copy2(src, dst)`: fails when the oracle says so or when the
source file is missing; on success the destination holds the source's
bytes. Returns the new state and whether the copy succeeded. -/
def copyFile (src dst : String) (st : St) : St × Bool :=
  let fail := st.oracle.headD false
  let st' : St := { st with oracle := st.oracle.tail }
  if fail then (st', false)
  else
    match st'.fs src with
    | some c => ({ st' with fs := st'.fs.write dst c }, true)
    | none => (st', false)

/-- `load_config()`: reads the config file, errors (exit 1) when the file is
missing or `parse` rejects its contents. -/
def load_config (parse : String → Option Config) (st : St) :
    Except (St × Nat) (St × Config) :=
  match st.fs configPath with
  | none =>
      .error (St.print st ("Error: Configuration file not found at " ++ configPath), 1)
  | some cdoc =>
      match parse cdoc with
      | none => .error (St.print st ("Error: Invalid JSON in configuration file"), 1)
      | some config => .ok (st, config)

/-- The lines printed for one registry entry by `list_layouts`. -/
def layoutLines (p : String × LayoutInfo) : List String :=
  ["\n" ++ p.1 ++ ":",
   "  Name: " ++ p.2.name,
   "  Description: " ++ p.2.description,
   "  Recommended Resolution: " ++ p.2.recommended_resolution,
   "  Use Cases: " ++ String.intercalate (", ") p.2.use_cases]

/-- `list_layouts(config)`. Returns the (unchanged) registry along with the
state, mirroring that the Python dict is still live afterwards. -/
def list_layouts (config : Config) (st : St) : St × Config :=
  let st := St.print st ("Available layouts:")
  let st := St.print st (String.mk (List.replicate 50 '='))
  let st := config.layouts.foldl (fun s p => St.printAll s (layoutLines p)) st
  (st, config)

/-- `apply_layout(config, layout_id)`: unknown id or missing source file or
copy failure exit 1; on success the preset is copied over the destination. -/
def apply_layout (config : Config) (layout_id : String) (st : St) :
    Except (St × Nat) (St × Config) :=
  match config.find layout_id with
  | none =>
      let st := St.print st ("Error: Layout '" ++ layout_id ++ "' not found.")
      let st := St.print st ("Use 'list' command to see available layouts.")
      .error (st, 1)
  | some layout_info =>
      let source_file := srcPath layout_info.file
      if (st.fs source_file).isSome then
        let r := copyFile source_file destPath st
        if r.2 then
          let st := St.print r.1 ("✓ Applied layout: " ++ layout_info.name)
          let st := St.print st ("  Description: " ++ layout_info.description)
          let st := St.print st ("  File: " ++ layout_info.file ++ " -> editor_layout.json")
          let st := St.print st ("\nRestart the editor to see the new layout.")
          .ok (st, config)
        else
          .error (St.print r.1 ("Error: Failed to copy layout file"), 1)
      else
        .error (St.print st ("Error: Layout file '" ++ source_file ++ "' not found."), 1)

/-- `backup_current_layout()`: copies the destination to the fixed backup
path when the destination exists; a copy failure only prints a warning and
never exits. -/
def backup_current_layout (st : St) : St :=
  if (st.fs destPath).isSome then
    let r := copyFile destPath backupPath st
    if r.2 then St.print r.1 ("✓ Current layout backed up to: " ++ backupPath)
    else St.print r.1 ("Warning: Failed to backup current layout")
  else
    St.print st ("No current layout file to backup.")

/-- `restore_backup()`: copies the fixed backup path over the destination;
missing backup or copy failure exit 1. -/
def restore_backup (st : St) : Except (St × Nat) St :=
  if (st.fs backupPath).isSome then
    let r := copyFile backupPath destPath st
    if r.2 then .ok (St.print r.1 ("✓ Backup layout restored."))
    else .error (St.print r.1 ("Error: Failed to restore backup"), 1)
  else
    .error (St.print st ("Error: No backup file found."), 1)

/-- The usage text printed by `show_usage()`. -/
def usageLines : List String :=
  ["Multi-Viewport Editor Layout Switcher",
   String.mk (List.replicate 40 '='),
   "\nUsage:",
   "  python switch_layout.py <command> [layout_id]",
   "\nCommands:",
   "  list                 - Show all available layouts",
   "  apply <layout_id>    - Apply a specific layout",
   "  backup               - Backup current layout",
   "  restore              - Restore backed up layout",
   "  help                 - Show this help message",
   "\nExamples:",
   "  python switch_layout.py list",
   "  python switch_layout.py apply developer",
   "  python switch_layout.py apply dual_monitor"]

/-- `show_usage()`. -/
def show_usage (st : St) : St := St.printAll st usageLines

/-- Python `str.lower()` (ASCII-faithful, character-wise). -/
def pyLower (s : String) : String := String.mk (s.data.map Char.toLower)

/-- The outcome of one full invocation: final filesystem, standard output,
exit code, and the in-memory registry at process end (`none` when
`load_config` never returned one). -/
structure RunResult where
  fs : Fs
  out : List String
  exit : Nat
  config : Option Config

/-- The command dispatch in `main()` after the config is loaded. -/
def dispatch (command : String) (argv : List String) (config : Config) (st : St) :
    RunResult :=
  if command = ("list") then
    let p := list_layouts config st
    ⟨p.1.fs, p.1.out, 0, some p.2⟩
  else if command = ("apply") then
    if argv.length < 3 then
      let st := St.print st ("Error: Please specify a layout ID.")
      let st := St.print st ("Use 'list' command to see available layouts.")
      ⟨st.fs, st.out, 1, some config⟩
    else
      let layout_id := argv.getD 2 ("")
      let st := backup_current_layout st
      match apply_layout config layout_id st with
      | .error (st2, code) => ⟨st2.fs, st2.out, code, some config⟩
      | .ok (st2, config2) => ⟨st2.fs, st2.out, 0, some config2⟩
  else if command = ("backup") then
    let st := backup_current_layout st
    ⟨st.fs, st.out, 0, some config⟩
  else if command = ("restore") then
    match restore_backup st with
    | .error (st2, code) => ⟨st2.fs, st2.out, code, some config⟩
    | .ok st2 => ⟨st2.fs, st2.out, 0, some config⟩
  else if command = ("help") ∨ command = ("-h") ∨ command = ("--help") then
    let st := show_usage st
    ⟨st.fs, st.out, 0, some config⟩
  else
    let st := St.print st ("Error: Unknown command '" ++ command ++ "'")
    let st := show_usage st
    ⟨st.fs, st.out, 1, some config⟩

/-- `main()`: `argv` is the full `sys.argv` (program name first). With no
arguments, usage is printed and the process exits 1 without ever reading
the config file; otherwise the command is lowercased, the config loaded,
and the command dispatched. -/
def mainRun (parse : String → Option Config) (argv : List String) (st : St) :
    RunResult :=
  if argv.length < 2 then
    let st := show_usage st
    ⟨st.fs, st.out, 1, none⟩
  else
    let command := pyLower (argv.getD 1 (""))
    match load_config parse st with
    | .error (st2, code) => ⟨st2.fs, st2.out, code, none⟩
    | .ok (st2, config) => dispatch command argv config st2

/-- Dispatching `backup`. -/
lemma dispatch_backup (argv : List String) (cfg : Config) (st : St) :
    dispatch ("backup") argv cfg st =
      ⟨(backup_current_layout st).fs, (backup_current_layout st).out, 0, some cfg⟩ := by
  simp [dispatch]

/-- Dispatching `restore`. -/
lemma dispatch_restore (argv : List String) (cfg : Config) (st : St) :
    dispatch ("restore") argv cfg st =
      (match restore_backup st with
       | .error (st2, code) => ⟨st2.fs, st2.out, code, some cfg⟩
       | .ok st2 => ⟨st2.fs, st2.out, 0, some cfg⟩) := by
  simp [dispatch]

/-- Dispatching `list`. -/
lemma dispatch_list (argv : List String) (cfg : Config) (st : St) :
    dispatch ("list") argv cfg st =
      ⟨(list_layouts cfg st).1.fs, (list_layouts cfg st).1.out, 0, some cfg⟩ := by
  simp [dispatch]
  rfl

/-- Dispatching `help`. -/
lemma dispatch_help (argv : List String) (cfg : Config) (st : St) :
    dispatch ("help") argv cfg st =
      ⟨st.fs, st.out ++ usageLines, 0, some cfg⟩ := by
  simp [dispatch, show_usage, St.printAll]

/-- Dispatching `apply` without a layout id. -/
lemma dispatch_apply_noId (p c : String) (cfg : Config) (st : St) :
    dispatch ("apply") ([p, c]) cfg st =
      ⟨st.fs,
       st.out ++ ["Error: Please specify a layout ID.",
                  "Use 'list' command to see available layouts."],
       1, some cfg⟩ := by
  simp [dispatch, St.print]

/-- A successful `apply_layout` hands back the registry it was given. -/
lemma apply_layout_ok_config (cfg : Config) (id : String) (st st2 : St) (cfg2 : Config)
    (h : apply_layout cfg id st = .ok (st2, cfg2)) : cfg2 = cfg := by
  simp only [apply_layout] at h
  split at h
  · simp at h
  · split at h
    · split at h
      · simp at h
        exact h.2.symm
      · simp at h
    · simp at h

/-- No dispatch branch changes the in-memory registry. -/
lemma dispatch_config (command : String) (argv : List String) (cfg : Config) (st : St) :
    (dispatch command argv cfg st).config = some cfg := by
  simp only [dispatch]
  split
  · rfl
  split
  · split
    · rfl
    · split
      · rfl
      · rename_i st2 cfg2 h
        rw [apply_layout_ok_config cfg _ _ st2 cfg2 h]
  split
  · rfl
  split
  · split
    · rfl
    · rfl
  split
  · rfl
  · rfl

/-- The state carried out of `apply_layout`, whether it exited or returned. -/
def applyResSt : Except (St × Nat) (St × Config) → St
  | .error (st, _) => st
  | .ok (st, _) => st

/-! ## Demonstration data used by witnesses and counterexamples -/

/-- A one-entry registry used in concrete runs. -/
def demoInfo : LayoutInfo :=
  ⟨"Developer", "A developer layout", "1920x1080", ["coding"], "layout_developer.json"⟩

/-- A registry entry whose source file is absent from the demo filesystem. -/
def ghostInfo : LayoutInfo :=
  ⟨"Ghost", "A layout with a missing preset file", "800x600", ["testing"], "missing.json"⟩

/-- The registry `{"dev": demoInfo, "ghost": ghostInfo}`. -/
def demoConfig : Config := ⟨[("dev", demoInfo), ("ghost", ghostInfo)]⟩

/-- A parser accepting exactly the document `"CFG"`. -/
def demoParse : String → Option Config :=
  fun s => if s = ("CFG") then some demoConfig else none

/-- Filesystem with a valid config, a current destination file `"OLD"`, a
stale backup `"STALE"`, and the preset source `"NEW"`. -/
def demoFs : Fs := fun p =>
  if p = configPath then some ("CFG")
  else if p = destPath then some ("OLD")
  else if p = backupPath then some ("STALE")
  else if p = srcPath ("layout_developer.json") then some ("NEW")
  else none

/-- Demo state with no copy failures. -/
def demoSt : St := ⟨demoFs, [], []⟩

/-- Filesystem with a valid config and a destination file but no backup
file. -/
def c5Fs : Fs := fun p =>
  if p = configPath then some ("CFG")
  else if p = destPath then some ("OLD")
  else none

/-- State over `c5Fs` with no copy failures. -/
def c5St : St := ⟨c5Fs, [], []⟩

/-- State over `c5Fs` whose first copy fails: used to exercise the
backup-copy-failure path. -/
def c1St : St := ⟨c5Fs, [], [true]⟩

/-- State with no config file at all. -/
def stNoCfg : St := ⟨fun _ => none, [], []⟩

/-- State whose config file holds a document the parser rejects. -/
def stBadCfg : St := ⟨fun p => if p = configPath then some ("BAD") else none, [], []⟩

/-- Filesystem with a valid config and the preset source but no destination
file. -/
def noDestFs : Fs := fun p =>
  if p = configPath then some ("CFG")
  else if p = srcPath ("layout_developer.json") then some ("NEW")
  else none

/-- State over `noDestFs` whose first copy fails: exercises the apply-copy
failure path with no backup copy before it. -/
def noDestFailSt : St := ⟨noDestFs, [], [true]⟩

/-- State over `demoFs` whose first copy fails: exercises the restore-copy
failure path. -/
def restoreFailSt : St := ⟨demoFs, [], [true]⟩

/-! ## Reduction lemmas -/

lemma print_fs (st : St) (m : String) : (St.print st m).fs = st.fs := rfl

lemma print_oracle (st : St) (m : String) : (St.print st m).oracle = st.oracle := rfl

lemma pyLower_list : pyLower ("list") = "list" := rfl

lemma pyLower_apply : pyLower ("apply") = "apply" := rfl

lemma pyLower_backup : pyLower ("backup") = "backup" := rfl

lemma pyLower_restore : pyLower ("restore") = "restore" := rfl

lemma pyLower_help : pyLower ("help") = "help" := rfl

lemma write_ne (fs : Fs) (p c q : String) (h : q ≠ p) : fs.write p c q = fs q := by
  simp [Fs.write, h]

lemma write_eq (fs : Fs) (p c : String) : fs.write p c p = some c := by
  simp [Fs.write]

/-- The fixed destination path differs from the fixed backup path. -/
lemma destPath_ne_backupPath : destPath ≠ backupPath := by decide

/-- The config path differs from the fixed backup path. -/
lemma configPath_ne_backupPath : configPath ≠ backupPath := by decide

/-- No preset source path (always under the script directory) is the
destination path. -/
lemma srcPath_ne_destPath (f : String) : srcPath f ≠ destPath := by
  intro h
  have h2 := congrArg String.data h
  simp [srcPath, destPath, String.data_append] at h2

/-- With at least one real argument and a loadable config, `main` becomes a
dispatch on the lowercased command. -/
lemma mainRun_ok (parse : String → Option Config) (p c : String) (rest : List String)
    (st : St) (cfg : Config) (cdoc : String)
    (hc : st.fs configPath = some cdoc) (hp : parse cdoc = some cfg) :
    mainRun parse (p :: c :: rest) st = dispatch (pyLower c) (p :: c :: rest) cfg st := by
  simp [mainRun, load_config, hc, hp]

/-- With at least one real argument and a missing config file, `main` exits 1. -/
lemma mainRun_noConfig (parse : String → Option Config) (p c : String) (rest : List String)
    (st : St) (hc : st.fs configPath = none) :
    mainRun parse (p :: c :: rest) st =
      ⟨st.fs, st.out ++ ["Error: Configuration file not found at " ++ configPath], 1, none⟩ := by
  simp [mainRun, load_config, hc, St.print]

/-- With at least one real argument and an unparsable config, `main` exits 1. -/
lemma mainRun_badConfig (parse : String → Option Config) (p c : String) (rest : List String)
    (st : St) (cdoc : String)
    (hc : st.fs configPath = some cdoc) (hp : parse cdoc = none) :
    mainRun parse (p :: c :: rest) st =
      ⟨st.fs, st.out ++ ["Error: Invalid JSON in configuration file"], 1, none⟩ := by
  simp [mainRun, load_config, hc, hp, St.print]

/-- Dispatching `apply` with an id runs the backup step first, then
`apply_layout`. -/
lemma dispatch_apply (p c id : String) (rest : List String) (cfg : Config) (st : St) :
    dispatch ("apply") (p :: c :: id :: rest) cfg st =
      (match apply_layout cfg id (backup_current_layout st) with
       | .error (st2, code) => ⟨st2.fs, st2.out, code, some cfg⟩
       | .ok (st2, cfg2) => ⟨st2.fs, st2.out, 0, some cfg2⟩) := by
  simp [dispatch]

/-- `main` reads the command argument only through `lower()`: two command
spellings with the same lowercasing give identical runs. -/
lemma mainRun_eq_of_lower (parse : String → Option Config) (p c c2 : String)
    (rest : List String) (st : St) (h : pyLower c = pyLower c2) :
    mainRun parse (p :: c :: rest) st = mainRun parse (p :: c2 :: rest) st := by
  have e : ∀ c0 : String, mainRun parse (p :: c0 :: rest) st =
      (match load_config parse st with
       | .error (st2, code) => ⟨st2.fs, st2.out, code, none⟩
       | .ok (st2, config) => dispatch (pyLower c0) (p :: c0 :: rest) config st2) := by
    intro c0
    simp [mainRun]
  rw [e c, e c2]
  rcases load_config parse st with ⟨st2, code⟩ | ⟨st2, config⟩
  · rfl
  · show dispatch (pyLower c) (p :: c :: rest) config st2 =
      dispatch (pyLower c2) (p :: c2 :: rest) config st2
    rw [h]
    rfl

/-- Backup step with a present destination and no copy failure: the backup
file receives the destination's contents. -/
lemma backup_some (st : St) (d : String) (hd : st.fs destPath = some d)
    (ho : st.oracle.headD false = false) :
    backup_current_layout st =
      ⟨st.fs.write backupPath d,
       st.out ++ ["✓ Current layout backed up to: " ++ backupPath], st.oracle.tail⟩ := by
  rw [List.headD_eq_head?] at ho
  simp [backup_current_layout, copyFile, hd, ho, St.print]

/-- Backup step with a missing destination: a message only. -/
lemma backup_missing (st : St) (hd : st.fs destPath = none) :
    backup_current_layout st = St.print st ("No current layout file to backup.") := by
  simp [backup_current_layout, hd]

/-- Backup step whose copy fails: a warning only, no exit, no write. -/
lemma backup_copyFail (st : St) (d : String)
    (hd : st.fs destPath = some d) (ho : st.oracle.headD false = true) :
    backup_current_layout st =
      ⟨st.fs, st.out ++ ["Warning: Failed to backup current layout"], st.oracle.tail⟩ := by
  rw [List.headD_eq_head?] at ho
  simp [backup_current_layout, copyFile, hd, ho, St.print]

/-- The backup step writes at most the backup path. -/
lemma backup_fs_frame (st : St) (q : String) (h : q ≠ backupPath) :
    (backup_current_layout st).fs q = st.fs q := by
  rcases hd : st.fs destPath with _ | d
  · rw [backup_missing st hd, print_fs]
  · cases ho : st.oracle.headD false
    · rw [backup_some st d hd ho]
      exact write_ne st.fs backupPath d q h
    · rw [backup_copyFail st d hd ho]

/-- `apply_layout` with an unknown id: error exit 1, state otherwise
unchanged. -/
lemma apply_layout_unknown (cfg : Config) (id : String) (st : St)
    (h : cfg.find id = none) :
    apply_layout cfg id st =
      .error (⟨st.fs,
               st.out ++ ["Error: Layout '" ++ id ++ "' not found.",
                          "Use 'list' command to see available layouts."],
               st.oracle⟩, 1) := by
  simp [apply_layout, h, St.print]

/-- `apply_layout` with a known id whose source file is missing: error exit 1. -/
lemma apply_layout_noSource (cfg : Config) (id : String) (st : St) (info : LayoutInfo)
    (h : cfg.find id = some info) (hs : st.fs (srcPath info.file) = none) :
    apply_layout cfg id st =
      .error (⟨st.fs,
               st.out ++ ["Error: Layout file '" ++ srcPath info.file ++ "' not found."],
               st.oracle⟩, 1) := by
  simp [apply_layout, h, hs, St.print]

/-- `apply_layout` with a known id, an existing source and no copy failure:
the preset's bytes land at the destination. -/
lemma apply_layout_success (cfg : Config) (id : String) (st : St) (info : LayoutInfo)
    (srcC : String) (h : cfg.find id = some info)
    (hs : st.fs (srcPath info.file) = some srcC)
    (ho : st.oracle.headD false = false) :
    apply_layout cfg id st =
      .ok (⟨st.fs.write destPath srcC,
            st.out ++ ["✓ Applied layout: " ++ info.name,
                       "  Description: " ++ info.description,
                       "  File: " ++ info.file ++ " -> editor_layout.json",
                       "\nRestart the editor to see the new layout."],
            st.oracle.tail⟩, cfg) := by
  rw [List.headD_eq_head?] at ho
  simp [apply_layout, h, hs, ho, copyFile, St.print]

/-- `apply_layout` with a known id and existing source whose copy fails:
error exit 1, no write. -/
lemma apply_layout_copyFail (cfg : Config) (id : String) (st : St) (info : LayoutInfo)
    (srcC : String) (h : cfg.find id = some info)
    (hs : st.fs (srcPath info.file) = some srcC)
    (ho : st.oracle.headD false = true) :
    apply_layout cfg id st =
      .error (⟨st.fs, st.out ++ ["Error: Failed to copy layout file"], st.oracle.tail⟩, 1) := by
  rw [List.headD_eq_head?] at ho
  simp [apply_layout, h, hs, ho, copyFile, St.print]

/-- `restore_backup` with no backup file: error exit 1, state otherwise
unchanged. -/
lemma restore_backup_missing (st : St) (hb : st.fs backupPath = none) :
    restore_backup st =
      .error (⟨st.fs, st.out ++ ["Error: No backup file found."], st.oracle⟩, 1) := by
  simp [restore_backup, hb, St.print]

/-- `restore_backup` with a backup present and no copy failure: the backup's
bytes land at the destination. -/
lemma restore_backup_success (st : St) (b : String) (hb : st.fs backupPath = some b)
    (ho : st.oracle.headD false = false) :
    restore_backup st =
      .ok ⟨st.fs.write destPath b, st.out ++ ["✓ Backup layout restored."],
           st.oracle.tail⟩ := by
  rw [List.headD_eq_head?] at ho
  simp [restore_backup, hb, ho, copyFile, St.print]

/-- `restore_backup` whose copy fails: error exit 1, no write. -/
lemma restore_backup_copyFail (st : St) (b : String)
    (hb : st.fs backupPath = some b) (ho : st.oracle.headD false = true) :
    restore_backup st =
      .error (⟨st.fs, st.out ++ ["Error: Failed to restore backup"], st.oracle.tail⟩, 1) := by
  rw [List.headD_eq_head?] at ho
  simp [restore_backup, hb, ho, copyFile, St.print]

/-- With an empty oracle the backup step leaves an empty oracle. -/
lemma backup_oracle_nil (st : St) (ho : st.oracle = []) :
    (backup_current_layout st).oracle = [] := by
  rcases hd : st.fs destPath with _ | d
  · rw [backup_missing st hd, print_oracle, ho]
  · cases hb : st.oracle.headD false
    · rw [backup_some st d hd hb]
      simp [ho]
    · rw [backup_copyFail st d hd hb]
      simp [ho]

/-- `apply_layout` writes at most the destination path. -/
lemma apply_layout_fs_frame (cfg : Config) (id : String) (st : St) (q : String)
    (h : q ≠ destPath) :
    (applyResSt (apply_layout cfg id st)).fs q = st.fs q := by
  rcases hf : cfg.find id with _ | info
  · rw [apply_layout_unknown cfg id st hf]
    rfl
  · rcases hs : st.fs (srcPath info.file) with _ | srcC
    · rw [apply_layout_noSource cfg id st info hf hs]
      rfl
    · cases hb : st.oracle.headD false
      · rw [apply_layout_success cfg id st info srcC hf hs hb]
        exact write_ne st.fs destPath srcC q h
      · rw [apply_layout_copyFail cfg id st info srcC hf hs hb]
        rfl

/-- The filesystem produced by dispatching `apply` is the one `apply_layout`
leaves behind (after the backup step), however `apply_layout` ends. -/
lemma dispatch_apply_fs (p c id : String) (rest : List String) (cfg : Config) (st : St) :
    (dispatch ("apply") (p :: c :: id :: rest) cfg st).fs =
      (applyResSt (apply_layout cfg id (backup_current_layout st))).fs := by
  rw [dispatch_apply]
  rcases apply_layout cfg id (backup_current_layout st) with ⟨st2, code⟩ | ⟨st2, cfg2⟩ <;> rfl

/-! ## Claim theorems -/

/-- C3: applying a layout id that is not a key of the registry exits with a
non-zero code and leaves the destination file's contents unchanged. -/
theorem C3_unknown_id_dest_untouched
    (parse : String → Option Config) (p id : String) (rest : List String)
    (st : St) (cfg : Config) (cdoc : String)
    (hc : st.fs configPath = some cdoc) (hp : parse cdoc = some cfg)
    (hf : cfg.find id = none) :
    (mainRun parse (p :: "apply" :: id :: rest) st).exit = 1 ∧
    (mainRun parse (p :: "apply" :: id :: rest) st).fs destPath = st.fs destPath := by
  rw [mainRun_ok parse p ("apply") (id :: rest) st cfg cdoc hc hp, pyLower_apply,
    dispatch_apply, apply_layout_unknown cfg id (backup_current_layout st) hf]
  exact ⟨rfl, backup_fs_frame st destPath destPath_ne_backupPath⟩

/-- C3 witness. -/
theorem C3_witness :
    (mainRun demoParse (["prog", "apply", "nope"]) demoSt).exit = 1 ∧
    (mainRun demoParse (["prog", "apply", "nope"]) demoSt).fs destPath =
      demoSt.fs destPath :=
  C3_unknown_id_dest_untouched demoParse ("prog") ("nope") [] demoSt demoConfig
    ("CFG") rfl rfl rfl

/-- C5: the `restore` command with no backup file present exits non-zero and
leaves the whole filesystem (in particular the destination file) unchanged. -/
theorem C5_restore_no_backup
    (parse : String → Option Config) (p : String) (rest : List String) (st : St)
    (hb : st.fs backupPath = none) :
    (mainRun parse (p :: "restore" :: rest) st).exit = 1 ∧
    (mainRun parse (p :: "restore" :: rest) st).fs = st.fs := by
  rcases hc : st.fs configPath with _ | cdoc
  · rw [mainRun_noConfig parse p ("restore") rest st hc]
    exact ⟨rfl, rfl⟩
  · rcases hp : parse cdoc with _ | cfg
    · rw [mainRun_badConfig parse p ("restore") rest st cdoc hc hp]
      exact ⟨rfl, rfl⟩
    · rw [mainRun_ok parse p ("restore") rest st cfg cdoc hc hp, pyLower_restore,
        dispatch_restore, restore_backup_missing st hb]
      exact ⟨rfl, rfl⟩

/-- C5 witness. -/
theorem C5_witness :
    (mainRun demoParse (["prog", "restore"]) c5St).exit = 1 ∧
    (mainRun demoParse (["prog", "restore"]) c5St).fs = c5St.fs :=
  C5_restore_no_backup demoParse ("prog") [] c5St rfl

/-- C6: applying a layout id present in the registry, whose source file
exists (and is not the backup file the preceding backup step writes) and
whose copy succeeds, exits zero and leaves exactly the preset's bytes at the
destination. -/
theorem C6_apply_copies_bytes
    (parse : String → Option Config) (p id : String) (rest : List String)
    (st : St) (cfg : Config) (cdoc : String) (info : LayoutInfo) (srcC : String)
    (hc : st.fs configPath = some cdoc) (hp : parse cdoc = some cfg)
    (hf : cfg.find id = some info)
    (hs : st.fs (srcPath info.file) = some srcC)
    (hnb : srcPath info.file ≠ backupPath)
    (ho : st.oracle = []) :
    (mainRun parse (p :: "apply" :: id :: rest) st).exit = 0 ∧
    (mainRun parse (p :: "apply" :: id :: rest) st).fs destPath = some srcC := by
  rw [mainRun_ok parse p ("apply") (id :: rest) st cfg cdoc hc hp, pyLower_apply,
    dispatch_apply]
  have hs1 : (backup_current_layout st).fs (srcPath info.file) = some srcC := by
    rw [backup_fs_frame st _ hnb]
    exact hs
  have ho1 : (backup_current_layout st).oracle.headD false = false := by
    rw [backup_oracle_nil st ho]
    rfl
  rw [apply_layout_success cfg id (backup_current_layout st) info srcC hf hs1 ho1]
  exact ⟨rfl, write_eq (backup_current_layout st).fs destPath srcC⟩

/-- C6 witness. -/
theorem C6_witness :
    (mainRun demoParse (["prog", "apply", "dev"]) demoSt).exit = 0 ∧
    (mainRun demoParse (["prog", "apply", "dev"]) demoSt).fs destPath = some ("NEW") :=
  C6_apply_copies_bytes demoParse ("prog") ("dev") [] demoSt demoConfig ("CFG")
    demoInfo ("NEW") rfl rfl rfl rfl (by decide) rfl

/-- C2 counterexample: with a known-good config, a stale backup file
`"STALE"` and a destination `"OLD"`, applying the unknown id `"nope"` fails
validation (exit 1) yet the backup file has been rewritten to `"OLD"` — so
the backup does not happen "only after successful validation". -/
theorem C2_counterexample :
    demoSt.fs backupPath = some ("STALE") ∧
    (mainRun demoParse (["prog", "apply", "nope"]) demoSt).exit = 1 ∧
    (mainRun demoParse (["prog", "apply", "nope"]) demoSt).fs backupPath =
      some ("OLD") :=
  ⟨rfl, rfl, rfl⟩

/-- C2 (amended): on `apply <id>`, the program first backs up the current
destination file if present, and only then validates the id: the backup file
ends up holding the destination's prior contents whatever the validation
outcome, and an unknown id still exits non-zero with the destination
unchanged, after which a known id's preset is copied over the destination
(that success case is `C6_apply_copies_bytes`). -/
theorem C2_amended_backup_precedes_validation
    (parse : String → Option Config) (p id : String) (rest : List String)
    (st : St) (cfg : Config) (cdoc d : String)
    (hc : st.fs configPath = some cdoc) (hp : parse cdoc = some cfg)
    (hd : st.fs destPath = some d) (ho : st.oracle = []) :
    (mainRun parse (p :: "apply" :: id :: rest) st).fs backupPath = some d ∧
    (cfg.find id = none →
      (mainRun parse (p :: "apply" :: id :: rest) st).exit = 1 ∧
      (mainRun parse (p :: "apply" :: id :: rest) st).fs destPath = some d) := by
  have hb0 : st.oracle.headD false = false := by
    rw [ho]
    rfl
  rw [mainRun_ok parse p ("apply") (id :: rest) st cfg cdoc hc hp, pyLower_apply]
  constructor
  · rw [dispatch_apply_fs p ("apply") id rest cfg st,
      apply_layout_fs_frame cfg id (backup_current_layout st) backupPath
        (Ne.symm destPath_ne_backupPath),
      backup_some st d hd hb0]
    exact write_eq st.fs backupPath d
  · intro hfind
    rw [dispatch_apply, apply_layout_unknown cfg id (backup_current_layout st) hfind]
    refine ⟨rfl, ?_⟩
    show (backup_current_layout st).fs destPath = some d
    rw [backup_fs_frame st destPath destPath_ne_backupPath]
    exact hd

/-- C2 (amended) witness. -/
theorem C2_amended_witness :
    (mainRun demoParse (["prog", "apply", "nope"]) demoSt).fs backupPath =
      some ("OLD") ∧
    (demoConfig.find ("nope") = none →
      (mainRun demoParse (["prog", "apply", "nope"]) demoSt).exit = 1 ∧
      (mainRun demoParse (["prog", "apply", "nope"]) demoSt).fs destPath =
        some ("OLD")) :=
  C2_amended_backup_precedes_validation demoParse ("prog") ("nope") [] demoSt
    demoConfig ("CFG") ("OLD") rfl rfl rfl rfl

/-- C4: `backup` then `restore` (with the config loadable, the destination
present, and no copy failures) round-trips the destination file's contents
exactly, both commands exiting zero. -/
theorem C4_backup_restore_roundtrip
    (parse : String → Option Config) (p q : String) (st : St) (cfg : Config)
    (cdoc d : String)
    (hc : st.fs configPath = some cdoc) (hp : parse cdoc = some cfg)
    (hd : st.fs destPath = some d) (ho : st.oracle = []) :
    (mainRun parse ([p, "backup"]) st).exit = 0 ∧
    (mainRun parse ([q, "restore"])
      ⟨(mainRun parse ([p, "backup"]) st).fs,
       (mainRun parse ([p, "backup"]) st).out, []⟩).exit = 0 ∧
    (mainRun parse ([q, "restore"])
      ⟨(mainRun parse ([p, "backup"]) st).fs,
       (mainRun parse ([p, "backup"]) st).out, []⟩).fs destPath = some d := by
  have hb0 : st.oracle.headD false = false := by
    rw [ho]
    rfl
  have e1 : mainRun parse ([p, "backup"]) st =
      ⟨st.fs.write backupPath d,
       st.out ++ ["✓ Current layout backed up to: " ++ backupPath], 0, some cfg⟩ := by
    rw [mainRun_ok parse p ("backup") [] st cfg cdoc hc hp, pyLower_backup,
      dispatch_backup, backup_some st d hd hb0]
  have hc2 : (st.fs.write backupPath d) configPath = some cdoc := by
    rw [write_ne st.fs backupPath d configPath configPath_ne_backupPath]
    exact hc
  have hb2 : (st.fs.write backupPath d) backupPath = some d := write_eq st.fs backupPath d
  have e2 : ∀ o : List String,
      mainRun parse ([q, "restore"]) ⟨st.fs.write backupPath d, o, []⟩ =
        ⟨(st.fs.write backupPath d).write destPath d,
         o ++ ["✓ Backup layout restored."], 0, some cfg⟩ := by
    intro o
    rw [mainRun_ok parse q ("restore") [] ⟨st.fs.write backupPath d, o, []⟩ cfg cdoc hc2 hp,
      pyLower_restore, dispatch_restore,
      restore_backup_success ⟨st.fs.write backupPath d, o, []⟩ d hb2 rfl]
  refine ⟨by rw [e1], ?_, ?_⟩
  · simp only [e1]
    rw [e2]
  · simp only [e1]
    rw [e2]
    exact write_eq (st.fs.write backupPath d) destPath d

/-- C4 witness. -/
theorem C4_witness :
    (mainRun demoParse (["prog", "backup"]) demoSt).exit = 0 ∧
    (mainRun demoParse (["prog", "restore"])
      ⟨(mainRun demoParse (["prog", "backup"]) demoSt).fs,
       (mainRun demoParse (["prog", "backup"]) demoSt).out, []⟩).exit = 0 ∧
    (mainRun demoParse (["prog", "restore"])
      ⟨(mainRun demoParse (["prog", "backup"]) demoSt).fs,
       (mainRun demoParse (["prog", "backup"]) demoSt).out, []⟩).fs destPath =
      some ("OLD") :=
  C4_backup_restore_roundtrip demoParse ("prog") ("prog") demoSt demoConfig
    ("CFG") ("OLD") rfl rfl rfl rfl

/-- C8: when the destination exists, `apply` overwrites the fixed backup
file with the destination's current contents even when the layout id is
unknown or the preset's source file is missing — a failing apply can
replace a previously saved backup. -/
theorem C8_failing_apply_overwrites_backup
    (parse : String → Option Config) (p id : String) (rest : List String)
    (st : St) (cfg : Config) (cdoc d : String)
    (hc : st.fs configPath = some cdoc) (hp : parse cdoc = some cfg)
    (hd : st.fs destPath = some d) (ho : st.oracle = [])
    (hfail : cfg.find id = none ∨
      ∃ info, cfg.find id = some info ∧ st.fs (srcPath info.file) = none ∧
        srcPath info.file ≠ backupPath) :
    (mainRun parse (p :: "apply" :: id :: rest) st).exit = 1 ∧
    (mainRun parse (p :: "apply" :: id :: rest) st).fs backupPath = some d := by
  have hb0 : st.oracle.headD false = false := by
    rw [ho]
    rfl
  rw [mainRun_ok parse p ("apply") (id :: rest) st cfg cdoc hc hp, pyLower_apply,
    dispatch_apply, backup_some st d hd hb0]
  rcases hfail with hfind | ⟨info, hfind, hsrc, hnb⟩
  · rw [apply_layout_unknown cfg id _ hfind]
    exact ⟨rfl, write_eq st.fs backupPath d⟩
  · have hsrc1 : (⟨st.fs.write backupPath d,
        st.out ++ ["✓ Current layout backed up to: " ++ backupPath],
        st.oracle.tail⟩ : St).fs (srcPath info.file) = none := by
      show (st.fs.write backupPath d) (srcPath info.file) = none
      rw [write_ne st.fs backupPath d _ hnb]
      exact hsrc
    rw [apply_layout_noSource cfg id _ info hfind hsrc1]
    exact ⟨rfl, write_eq st.fs backupPath d⟩

/-- C8 witness (unknown id with a stale backup present). -/
theorem C8_witness :
    (mainRun demoParse (["prog", "apply", "nope"]) demoSt).exit = 1 ∧
    (mainRun demoParse (["prog", "apply", "nope"]) demoSt).fs backupPath =
      some ("OLD") :=
  C8_failing_apply_overwrites_backup demoParse ("prog") ("nope") [] demoSt
    demoConfig ("CFG") ("OLD") rfl rfl rfl rfl (Or.inl rfl)

/-- C7: whatever command is dispatched, the in-memory registry at process
end is exactly the one `load_config` returned: no handler mutates it. -/
theorem C7_registry_never_mutated
    (parse : String → Option Config) (argv : List String) (st : St)
    (cfg : Config) (cdoc : String) (hlen : 2 ≤ argv.length)
    (hc : st.fs configPath = some cdoc) (hp : parse cdoc = some cfg) :
    (mainRun parse argv st).config = some cfg := by
  match argv with
  | [] => simp at hlen
  | [p] => simp at hlen
  | p :: c :: rest =>
    rw [mainRun_ok parse p c rest st cfg cdoc hc hp]
    exact dispatch_config (pyLower c) (p :: c :: rest) cfg st

/-- C7 witness. -/
theorem C7_witness :
    (mainRun demoParse (["prog", "apply", "dev"]) demoSt).config = some demoConfig :=
  C7_registry_never_mutated demoParse (["prog", "apply", "dev"]) demoSt demoConfig
    ("CFG") (by decide) rfl rfl

/-- C9: with at least one argument the config file is loaded before any
command is dispatched, so every command — `help` included — exits non-zero
when the config file is missing or unparsable; the zero-argument invocation
prints the usage text and exits 1 without reading anything from the
filesystem. -/
theorem C9_config_loaded_before_dispatch
    (parse : String → Option Config) (argv : List String) (st : St) :
    (∀ p c rest, argv = p :: c :: rest → st.fs configPath = none →
      (mainRun parse argv st).exit = 1 ∧
      (mainRun parse argv st).out =
        st.out ++ ["Error: Configuration file not found at " ++ configPath]) ∧
    (∀ p c rest cdoc, argv = p :: c :: rest → st.fs configPath = some cdoc →
      parse cdoc = none →
      (mainRun parse argv st).exit = 1 ∧
      (mainRun parse argv st).out =
        st.out ++ ["Error: Invalid JSON in configuration file"]) ∧
    (∀ pn, argv = [pn] →
      mainRun parse argv st = ⟨st.fs, st.out ++ usageLines, 1, none⟩) ∧
    (argv = [] → mainRun parse argv st = ⟨st.fs, st.out ++ usageLines, 1, none⟩) := by
  refine ⟨?_, ?_, ?_, ?_⟩
  · rintro p c rest rfl hc
    rw [mainRun_noConfig parse p c rest st hc]
    exact ⟨rfl, rfl⟩
  · rintro p c rest cdoc rfl hc hp
    rw [mainRun_badConfig parse p c rest st cdoc hc hp]
    exact ⟨rfl, rfl⟩
  · rintro pn rfl
    simp [mainRun, show_usage, St.printAll]
  · rintro rfl
    simp [mainRun, show_usage, St.printAll]

/-- C9 witness. -/
theorem C9_witness :
    ((mainRun demoParse (["prog", "help"]) stNoCfg).exit = 1 ∧
      (mainRun demoParse (["prog", "help"]) stNoCfg).out =
        stNoCfg.out ++ ["Error: Configuration file not found at " ++ configPath]) ∧
    ((mainRun demoParse (["prog", "help"]) stBadCfg).exit = 1 ∧
      (mainRun demoParse (["prog", "help"]) stBadCfg).out =
        stBadCfg.out ++ ["Error: Invalid JSON in configuration file"]) ∧
    mainRun demoParse (["prog"]) stNoCfg =
      ⟨stNoCfg.fs, stNoCfg.out ++ usageLines, 1, none⟩ :=
  ⟨(C9_config_loaded_before_dispatch demoParse (["prog", "help"]) stNoCfg).1
      ("prog") ("help") [] rfl rfl,
   (C9_config_loaded_before_dispatch demoParse (["prog", "help"]) stBadCfg).2.1
      ("prog") ("help") [] ("BAD") rfl rfl rfl,
   (C9_config_loaded_before_dispatch demoParse (["prog"]) stNoCfg).2.2.1
      ("prog") rfl⟩

/-- C10: the command is lowercased before dispatch — any spelling `s` with
`s.lower()` equal to one of the five command names runs exactly as that
command — while the layout id is matched against the registry keys without
case folding: `apply dev` succeeds on the demo registry but `apply DEV`
fails. -/
theorem C10_command_lowered_id_case_sensitive
    (parse : String → Option Config) (p : String) (rest : List String) (st : St) :
    (∀ s, pyLower s = "list" →
      mainRun parse (p :: s :: rest) st = mainRun parse (p :: "list" :: rest) st) ∧
    (∀ s, pyLower s = "apply" →
      mainRun parse (p :: s :: rest) st = mainRun parse (p :: "apply" :: rest) st) ∧
    (∀ s, pyLower s = "backup" →
      mainRun parse (p :: s :: rest) st = mainRun parse (p :: "backup" :: rest) st) ∧
    (∀ s, pyLower s = "restore" →
      mainRun parse (p :: s :: rest) st = mainRun parse (p :: "restore" :: rest) st) ∧
    (∀ s, pyLower s = "help" →
      mainRun parse (p :: s :: rest) st = mainRun parse (p :: "help" :: rest) st) ∧
    (mainRun demoParse (["prog", "apply", "dev"]) demoSt).exit = 0 ∧
    (mainRun demoParse (["prog", "apply", "DEV"]) demoSt).exit = 1 := by
  refine ⟨?_, ?_, ?_, ?_, ?_, rfl, rfl⟩ <;>
    exact fun s hs => mainRun_eq_of_lower parse p s _ rest st (by rw [hs]; rfl)

/-- C10 witness. -/
theorem C10_witness :
    mainRun demoParse (["prog", "LIST"]) demoSt =
      mainRun demoParse (["prog", "list"]) demoSt :=
  (C10_command_lowered_id_case_sensitive demoParse ("prog") [] demoSt).1
    ("LIST") (by rfl)

/-- C1 counterexample: with a valid config, a present destination and a
copy failure during the backup step, the `backup` command prints a warning
yet exits 0 — so not every detected failure (in particular not a copy
failure during the backup step) terminates the process with a non-zero
code. -/
theorem C1_counterexample :
    (mainRun demoParse (["prog", "backup"]) c1St).out =
      ["Warning: Failed to backup current layout"] ∧
    (mainRun demoParse (["prog", "backup"]) c1St).exit = 0 :=
  ⟨rfl, rfl⟩

/-- C1 (amended): every detected failure except a copy failure during the
backup step — missing or invalid config file, missing layout id argument,
unknown layout id, missing source file, apply-copy failure (whatever the
backup step did before it), missing backup file, restore-copy failure —
prints its error message to standard output and exits with a non-zero
code; a copy failure during the backup step only prints a warning and
execution continues with the exit code unaffected: the `backup` command
then exits 0, and an `apply` whose backup copy fails carries on and
succeeds. -/
theorem C1_amended_fatal_errors (parse : String → Option Config) (st : St) :
    (∀ p c rest, st.fs configPath = none →
      (mainRun parse (p :: c :: rest) st).exit = 1 ∧
      (mainRun parse (p :: c :: rest) st).out =
        st.out ++ ["Error: Configuration file not found at " ++ configPath]) ∧
    (∀ p c rest cdoc, st.fs configPath = some cdoc → parse cdoc = none →
      (mainRun parse (p :: c :: rest) st).exit = 1 ∧
      (mainRun parse (p :: c :: rest) st).out =
        st.out ++ ["Error: Invalid JSON in configuration file"]) ∧
    (∀ p cfg cdoc, st.fs configPath = some cdoc → parse cdoc = some cfg →
      (mainRun parse ([p, "apply"]) st).exit = 1 ∧
      (mainRun parse ([p, "apply"]) st).out =
        st.out ++ ["Error: Please specify a layout ID.",
                   "Use 'list' command to see available layouts."]) ∧
    (∀ p id rest cfg cdoc, st.fs configPath = some cdoc → parse cdoc = some cfg →
      cfg.find id = none →
      (mainRun parse (p :: "apply" :: id :: rest) st).exit = 1 ∧
      (mainRun parse (p :: "apply" :: id :: rest) st).out =
        (backup_current_layout st).out ++
          ["Error: Layout '" ++ id ++ "' not found.",
           "Use 'list' command to see available layouts."]) ∧
    (∀ p id rest cfg cdoc info, st.fs configPath = some cdoc → parse cdoc = some cfg →
      cfg.find id = some info → st.fs (srcPath info.file) = none →
      srcPath info.file ≠ backupPath →
      (mainRun parse (p :: "apply" :: id :: rest) st).exit = 1 ∧
      (mainRun parse (p :: "apply" :: id :: rest) st).out =
        (backup_current_layout st).out ++
          ["Error: Layout file '" ++ srcPath info.file ++ "' not found."]) ∧
    (∀ p id rest cfg cdoc info srcC, st.fs configPath = some cdoc →
      parse cdoc = some cfg → cfg.find id = some info →
      (backup_current_layout st).fs (srcPath info.file) = some srcC →
      (backup_current_layout st).oracle.headD false = true →
      (mainRun parse (p :: "apply" :: id :: rest) st).exit = 1 ∧
      (mainRun parse (p :: "apply" :: id :: rest) st).out =
        (backup_current_layout st).out ++ ["Error: Failed to copy layout file"]) ∧
    (∀ p rest cfg cdoc, st.fs configPath = some cdoc → parse cdoc = some cfg →
      st.fs backupPath = none →
      (mainRun parse (p :: "restore" :: rest) st).exit = 1 ∧
      (mainRun parse (p :: "restore" :: rest) st).out =
        st.out ++ ["Error: No backup file found."]) ∧
    (∀ p rest cfg cdoc b, st.fs configPath = some cdoc → parse cdoc = some cfg →
      st.fs backupPath = some b → st.oracle.headD false = true →
      (mainRun parse (p :: "restore" :: rest) st).exit = 1 ∧
      (mainRun parse (p :: "restore" :: rest) st).out =
        st.out ++ ["Error: Failed to restore backup"]) ∧
    (∀ p rest cfg cdoc d, st.fs configPath = some cdoc → parse cdoc = some cfg →
      st.fs destPath = some d → st.oracle.headD false = true →
      (mainRun parse (p :: "backup" :: rest) st).exit = 0 ∧
      (mainRun parse (p :: "backup" :: rest) st).out =
        st.out ++ ["Warning: Failed to backup current layout"]) ∧
    (∀ p id rest cfg cdoc info srcC d, st.fs configPath = some cdoc →
      parse cdoc = some cfg → cfg.find id = some info →
      st.fs destPath = some d → st.oracle.headD false = true →
      st.fs (srcPath info.file) = some srcC →
      st.oracle.tail.headD false = false →
      (mainRun parse (p :: "apply" :: id :: rest) st).exit = 0 ∧
      (mainRun parse (p :: "apply" :: id :: rest) st).out =
        st.out ++ ["Warning: Failed to backup current layout"] ++
          ["✓ Applied layout: " ++ info.name,
           "  Description: " ++ info.description,
           "  File: " ++ info.file ++ " -> editor_layout.json",
           "\nRestart the editor to see the new layout."] ∧
      (mainRun parse (p :: "apply" :: id :: rest) st).fs destPath = some srcC) := by
  refine ⟨?_, ?_, ?_, ?_, ?_, ?_, ?_, ?_, ?_, ?_⟩
  · intro p c rest hc
    rw [mainRun_noConfig parse p c rest st hc]
    exact ⟨rfl, rfl⟩
  · intro p c rest cdoc hc hp
    rw [mainRun_badConfig parse p c rest st cdoc hc hp]
    exact ⟨rfl, rfl⟩
  · intro p cfg cdoc hc hp
    rw [mainRun_ok parse p ("apply") [] st cfg cdoc hc hp, pyLower_apply,
      dispatch_apply_noId p ("apply") cfg st]
    exact ⟨rfl, rfl⟩
  · intro p id rest cfg cdoc hc hp hfind
    rw [mainRun_ok parse p ("apply") (id :: rest) st cfg cdoc hc hp, pyLower_apply,
      dispatch_apply, apply_layout_unknown cfg id (backup_current_layout st) hfind]
    exact ⟨rfl, rfl⟩
  · intro p id rest cfg cdoc info hc hp hfind hsrc hnb
    rw [mainRun_ok parse p ("apply") (id :: rest) st cfg cdoc hc hp, pyLower_apply,
      dispatch_apply]
    have hsrc1 : (backup_current_layout st).fs (srcPath info.file) = none := by
      rw [backup_fs_frame st _ hnb]
      exact hsrc
    rw [apply_layout_noSource cfg id (backup_current_layout st) info hfind hsrc1]
    exact ⟨rfl, rfl⟩
  · intro p id rest cfg cdoc info srcC hc hp hfind hsrc ho
    rw [mainRun_ok parse p ("apply") (id :: rest) st cfg cdoc hc hp, pyLower_apply,
      dispatch_apply,
      apply_layout_copyFail cfg id (backup_current_layout st) info srcC hfind hsrc ho]
    exact ⟨rfl, rfl⟩
  · intro p rest cfg cdoc hc hp hb
    rw [mainRun_ok parse p ("restore") rest st cfg cdoc hc hp, pyLower_restore,
      dispatch_restore, restore_backup_missing st hb]
    exact ⟨rfl, rfl⟩
  · intro p rest cfg cdoc b hc hp hb ho
    rw [mainRun_ok parse p ("restore") rest st cfg cdoc hc hp, pyLower_restore,
      dispatch_restore, restore_backup_copyFail st b hb ho]
    exact ⟨rfl, rfl⟩
  · intro p rest cfg cdoc d hc hp hd ho
    rw [mainRun_ok parse p ("backup") rest st cfg cdoc hc hp, pyLower_backup,
      dispatch_backup, backup_copyFail st d hd ho]
    exact ⟨rfl, rfl⟩
  · intro p id rest cfg cdoc info srcC d hc hp hfind hd ho hsrc ho2
    rw [mainRun_ok parse p ("apply") (id :: rest) st cfg cdoc hc hp, pyLower_apply,
      dispatch_apply, backup_copyFail st d hd ho]
    have hs1 : (⟨st.fs, st.out ++ ["Warning: Failed to backup current layout"],
        st.oracle.tail⟩ : St).fs (srcPath info.file) = some srcC := hsrc
    have ho1 : (⟨st.fs, st.out ++ ["Warning: Failed to backup current layout"],
        st.oracle.tail⟩ : St).oracle.headD false = false := ho2
    rw [apply_layout_success cfg id (⟨st.fs,
      st.out ++ ["Warning: Failed to backup current layout"], st.oracle.tail⟩ : St)
      info srcC hfind hs1 ho1]
    exact ⟨rfl, rfl, write_eq st.fs destPath srcC⟩

/-- C1 (amended) witness: one concrete run per branch, fatal and
non-fatal. -/
theorem C1_amended_witness :
    ((mainRun demoParse (["prog", "help"]) stNoCfg).exit = 1 ∧
      (mainRun demoParse (["prog", "help"]) stNoCfg).out =
        stNoCfg.out ++ ["Error: Configuration file not found at " ++ configPath]) ∧
    ((mainRun demoParse (["prog", "list"]) stBadCfg).exit = 1 ∧
      (mainRun demoParse (["prog", "list"]) stBadCfg).out =
        stBadCfg.out ++ ["Error: Invalid JSON in configuration file"]) ∧
    ((mainRun demoParse (["prog", "apply"]) demoSt).exit = 1 ∧
      (mainRun demoParse (["prog", "apply"]) demoSt).out =
        demoSt.out ++ ["Error: Please specify a layout ID.",
                       "Use 'list' command to see available layouts."]) ∧
    ((mainRun demoParse (["prog", "apply", "nope"]) demoSt).exit = 1 ∧
      (mainRun demoParse (["prog", "apply", "nope"]) demoSt).out =
        (backup_current_layout demoSt).out ++
          ["Error: Layout '" ++ "nope" ++ "' not found.",
           "Use 'list' command to see available layouts."]) ∧
    ((mainRun demoParse (["prog", "apply", "ghost"]) demoSt).exit = 1 ∧
      (mainRun demoParse (["prog", "apply", "ghost"]) demoSt).out =
        (backup_current_layout demoSt).out ++
          ["Error: Layout file '" ++ srcPath ghostInfo.file ++ "' not found."]) ∧
    ((mainRun demoParse (["prog", "apply", "dev"]) noDestFailSt).exit = 1 ∧
      (mainRun demoParse (["prog", "apply", "dev"]) noDestFailSt).out =
        (backup_current_layout noDestFailSt).out ++
          ["Error: Failed to copy layout file"]) ∧
    ((mainRun demoParse (["prog", "restore"]) c5St).exit = 1 ∧
      (mainRun demoParse (["prog", "restore"]) c5St).out =
        c5St.out ++ ["Error: No backup file found."]) ∧
    ((mainRun demoParse (["prog", "restore"]) restoreFailSt).exit = 1 ∧
      (mainRun demoParse (["prog", "restore"]) restoreFailSt).out =
        restoreFailSt.out ++ ["Error: Failed to restore backup"]) ∧
    ((mainRun demoParse (["prog", "backup"]) c1St).exit = 0 ∧
      (mainRun demoParse (["prog", "backup"]) c1St).out =
        c1St.out ++ ["Warning: Failed to backup current layout"]) ∧
    ((mainRun demoParse (["prog", "apply", "dev"]) restoreFailSt).exit = 0 ∧
      (mainRun demoParse (["prog", "apply", "dev"]) restoreFailSt).out =
        restoreFailSt.out ++ ["Warning: Failed to backup current layout"] ++
          ["✓ Applied layout: " ++ demoInfo.name,
           "  Description: " ++ demoInfo.description,
           "  File: " ++ demoInfo.file ++ " -> editor_layout.json",
           "\nRestart the editor to see the new layout."] ∧
      (mainRun demoParse (["prog", "apply", "dev"]) restoreFailSt).fs destPath =
        some ("NEW")) :=
  ⟨(C1_amended_fatal_errors demoParse stNoCfg).1 ("prog") ("help") [] rfl,
   (C1_amended_fatal_errors demoParse stBadCfg).2.1 ("prog") ("list") [] ("BAD") rfl rfl,
   (C1_amended_fatal_errors demoParse demoSt).2.2.1 ("prog") demoConfig ("CFG") rfl rfl,
   (C1_amended_fatal_errors demoParse demoSt).2.2.2.1 ("prog") ("nope") [] demoConfig
     ("CFG") rfl rfl rfl,
   (C1_amended_fatal_errors demoParse demoSt).2.2.2.2.1 ("prog") ("ghost") [] demoConfig
     ("CFG") ghostInfo rfl rfl rfl rfl (by decide),
   (C1_amended_fatal_errors demoParse noDestFailSt).2.2.2.2.2.1 ("prog") ("dev") []
     demoConfig ("CFG") demoInfo ("NEW") rfl rfl rfl rfl rfl,
   (C1_amended_fatal_errors demoParse c5St).2.2.2.2.2.2.1 ("prog") [] demoConfig
     ("CFG") rfl rfl rfl,
   (C1_amended_fatal_errors demoParse restoreFailSt).2.2.2.2.2.2.2.1 ("prog") []
     demoConfig ("CFG") ("STALE") rfl rfl rfl rfl,
   (C1_amended_fatal_errors demoParse c1St).2.2.2.2.2.2.2.2.1 ("prog") [] demoConfig
     ("CFG") ("OLD") rfl rfl rfl rfl,
   (C1_amended_fatal_errors demoParse restoreFailSt).2.2.2.2.2.2.2.2.2 ("prog") ("dev")
     [] demoConfig ("CFG") demoInfo ("NEW") ("OLD") rfl rfl rfl rfl rfl rfl rfl⟩

end SwitchLayout
